import Mathlib

/-!
Shallow embedding of the ACE Pro HMI client (Kobra-S1/ACEPRO).

The implemented logic lives in `src/hmi/src/ui_ace_pro.cpp` (`AceProUI`):
global UI-element handles, slot update/highlight logic and the color-name
lookup.  Compile-time constants come from `src/hmi/include/config.h`.
The data model (`MaterialSlot`, `AceStatus`) is declared in
`src/hmi/include/ace_api.h`.  The `AceAPI` command dispatcher / status
poller and `NetworkManager::setMoonrakerHost` exist in the repository only
as declarations (the `AceAPI` class body is commented out; the
`NetworkManager` methods have no definitions), so those operations are
modelled from the specification, each marked `Modelled from the spec:`.
-/

/- ===== config.h : compile-time constants ===== -/

/-- `#define ACE_SLOT_COUNT 4` (config.h line 51). -/
def ACE_SLOT_COUNT : Nat := 4

/-- `#define UI_UPDATE_INTERVAL 1000` (config.h line 58), milliseconds. -/
def UI_UPDATE_INTERVAL : Nat := 1000

/-- `#define STATUS_UPDATE_INTERVAL 2000` (config.h line 59), milliseconds. -/
def STATUS_UPDATE_INTERVAL : Nat := 2000

/-- `#define CONNECTION_RETRY_INTERVAL 5000` (config.h line 60), milliseconds. -/
def CONNECTION_RETRY_INTERVAL : Nat := 5000

/-- `#define HTTP_TIMEOUT 5000` (config.h line 61), milliseconds. -/
def HTTP_TIMEOUT : Nat := 5000

/- ===== ui_ace_pro.cpp : AceProUI state model =====

The C++ file keeps static globals: `main_screen`, `status_label`,
`slot_buttons[8]` (entries 4..7 initialised to NULL and never assigned).
We model the observable style state of each LVGL object the code mutates. -/

/-- Observable state of one slot button: its background color, border color,
border width (set by `lv_obj_set_style_*` calls) and the text of its child
label (set by `lv_label_set_text_fmt`). -/
structure SlotButton where
  bgColor : Nat
  borderColor : Nat
  borderWidth : Nat
  labelText : String
deriving DecidableEq, Repr

/-- Observable state of the status label: its text and text color. -/
structure StatusLabel where
  text : String
  textColor : Nat
deriving DecidableEq, Repr

/-- The static globals of `ui_ace_pro.cpp`: `main_screen` (modelled as a flag:
has the screen object been created), `status_label`, the 8-entry
`slot_buttons` array (NULL entries are `none`), and whether `lv_scr_load`
has been called on `main_screen`. -/
structure UIState where
  main_screen : Bool
  status_label : Option StatusLabel
  slot_buttons : Fin 8 → Option SlotButton
  screen_loaded : Bool

/-- ASCII lower-casing of one character (Arduino `tolower`). -/
def lowerChar (ch : Char) : Char :=
  if 'A' ≤ ch ∧ ch ≤ 'Z' then Char.ofNat (ch.toNat + 32) else ch

/-- ASCII lower-casing of a string. -/
def lowerStr (s : String) : String :=
  String.mk (s.data.map lowerChar)

/-- Arduino `String::equalsIgnoreCase`: ASCII case-insensitive equality. -/
def equalsIgnoreCase (a b : String) : Bool :=
  lowerStr a == lowerStr b

namespace AceProUI

/-- The body of the color chain in `AceProUI::updateMaterialSlot`
(ui_ace_pro.cpp lines 205-211): `slot_color` starts at the default
`0x0d47a1` and each `equalsIgnoreCase` branch overrides it. -/
def slotColorOf (color : String) : Nat :=
  if equalsIgnoreCase color "red" then 0x1a237e
  else if equalsIgnoreCase color "green" then 0x0277bd
  else if equalsIgnoreCase color "blue" then 0x1976d2
  else if equalsIgnoreCase color "yellow" then 0x1565c0
  else if equalsIgnoreCase color "white" then 0x42a5f5
  else if equalsIgnoreCase color "black" then 0x0d47a1
  else 0x0d47a1

/-- One freshly created slot button from `AceProUI::createMaterialSlots`
(ui_ace_pro.cpp lines 80-101): dark-blue background `0x0d47a1`, light-blue
border `0x42a5f5` width 2, label `"Slot %d\nEmpty"` with `i + 1`. -/
def initSlotButton (i : Nat) : SlotButton :=
  { bgColor := 0x0d47a1
    borderColor := 0x42a5f5
    borderWidth := 2
    labelText := "Slot " ++ toString (i + 1) ++ "\nEmpty" }

/-- State before `AceProUI::init` has run: every static handle is NULL
(ui_ace_pro.cpp lines 5-8). -/
def initialState : UIState :=
  { main_screen := false
    status_label := none
    slot_buttons := fun _ => none
    screen_loaded := false }

/-- `AceProUI::init` / `createMainScreen` / `createMaterialSlots`
(ui_ace_pro.cpp lines 22-107): creates the screen, the status label with
text `"Status: Ready"` and color `0x42a5f5`, slot buttons 0..3, and leaves
`slot_buttons[4..7]` NULL. -/
def init (_ui : UIState) : UIState :=
  { main_screen := true
    status_label := some { text := "Status: Ready", textColor := 0x42a5f5 }
    slot_buttons := fun i => if i.val < 4 then some (initSlotButton i.val) else none
    screen_loaded := false }

/-- `AceProUI::show` (ui_ace_pro.cpp lines 178-183): `if (main_screen)
lv_scr_load(main_screen)`. -/
def showScreen (ui : UIState) : UIState :=
  if ui.main_screen then { ui with screen_loaded := true } else ui

/-- `AceProUI::updateStatus` (ui_ace_pro.cpp lines 185-191): `if
(status_label)` set its text and color (`0x3949ab` on error, `0x42a5f5`
otherwise). -/
def updateStatus (ui : UIState) (status : String) (isError : Bool) : UIState :=
  match ui.status_label with
  | none => ui
  | some _ =>
      let lbl : StatusLabel :=
        { text := status, textColor := if isError then 0x3949ab else 0x42a5f5 }
      { ui with status_label := some lbl }

/-- `AceProUI::updateMaterialSlot` (ui_ace_pro.cpp lines 193-215):
`if (slot < 0 || slot >= 4 || !slot_buttons[slot]) return;` then either
resets the slot to `"Slot %d\nEmpty"` with background `0x0d47a1`, or sets
the label to `"Slot %d\n%s\n%s"` and the background from the color chain. -/
def updateMaterialSlot (ui : UIState) (slot : Int) (material color : String)
    (isEmpty : Bool) : UIState :=
  if h : slot < 0 ∨ 4 ≤ slot then ui
  else
    let idx : Fin 8 := ⟨slot.toNat, by omega⟩
    match ui.slot_buttons idx with
    | none => ui
    | some b =>
        let b' : SlotButton :=
          if isEmpty then
            { b with labelText := "Slot " ++ toString (slot + 1) ++ "\nEmpty",
                     bgColor := 0x0d47a1 }
          else
            { b with labelText := "Slot " ++ toString (slot + 1) ++ "\n"
                       ++ material ++ "\n" ++ color,
                     bgColor := slotColorOf color }
        { ui with slot_buttons := Function.update ui.slot_buttons idx (some b') }

/-- `AceProUI::slotButtonCallback` (ui_ace_pro.cpp lines 133-150): for each
`i` in `0..3` with `slot_buttons[i] != NULL`, set border color `0x00e5ff`
width 3 when `i == slot_index`, else border color `0x42a5f5` width 2. -/
def slotButtonCallback (ui : UIState) (slot_index : Int) : UIState :=
  { ui with slot_buttons := fun i =>
      if i.val < 4 then
        match ui.slot_buttons i with
        | none => none
        | some b =>
            if (i.val : Int) = slot_index then
              some { b with borderColor := 0x00e5ff, borderWidth := 3 }
            else
              some { b with borderColor := 0x42a5f5, borderWidth := 2 }
      else ui.slot_buttons i }

end AceProUI

/- ===== ace_api.h : data model (lines 10-29, live code) ===== -/

/-- `struct MaterialSlot` (ace_api.h lines 10-17): index, status string
(documented values `"empty"`, `"ready"`), material, color, target
temperature and the packed RGB display color. -/
structure MaterialSlot where
  index : Int
  status : String
  material : String
  color : String
  temp : Int
  colorRGB : Nat
deriving DecidableEq, Repr

/-- `struct AceStatus` (ace_api.h lines 19-29).  The source stores `status`
as a `String` with documented values `"ready"`, `"busy"`, `"error"`;
`temperature` is a `float` in the source, modelled as an integer-valued
reading since the client never computes with it; `slots` is the fixed-size
array `MaterialSlot slots[ACE_SLOT_COUNT]`, modelled as a length-indexed
list; `lastUpdate` is the `unsigned long` millisecond timestamp. -/
structure AceStatus where
  status : String
  currentTool : Int
  temperature : Int
  endlessSpoolEnabled : Bool
  runoutDetected : Bool
  inProgress : Bool
  slots : { l : List MaterialSlot // l.length = ACE_SLOT_COUNT }
  lastError : String
  lastUpdate : Nat
deriving DecidableEq, Repr

/-- The documented value set of `AceStatus.status` (comment on ace_api.h
line 20), the source-level spelling of the enumeration {Ready, Busy,
Error}. -/
def overallStatusValues : List String := ["ready", "busy", "error"]

/- ===== network_manager.h : ConnectionState and setMoonrakerHost ===== -/

/-- `enum class ConnectionState` (network_manager.h lines 9-14). -/
inductive ConnectionState where
  | DISCONNECTED
  | CONNECTING
  | CONNECTED
  | ERROR
deriving DecidableEq, Repr

/-- The private state of `NetworkManager` relevant to host configuration
(network_manager.h lines 16-23): the connection state and the configured
Moonraker target.  `state` is a private member, so only `NetworkManager`'s
own methods can mutate it. -/
structure NetworkManagerState where
  state : ConnectionState
  host : String
  port : Int
deriving DecidableEq, Repr

namespace NetworkManager

/-- Modelled from the spec: `NetworkManager::setMoonrakerHost` is declared
(network_manager.h line 53) but has no body anywhere in the repository.
Per the spec (§4.1), `configure(host, port, apiKey?)` sets the target, may
be called before any request, and changing the host while the connection
state is Connected transitions it to Disconnected. -/
def setMoonrakerHost (nm : NetworkManagerState) (host : String) (port : Int) :
    NetworkManagerState :=
  if nm.state = ConnectionState.CONNECTED ∧ host ≠ nm.host then
    { state := ConnectionState.DISCONNECTED, host := host, port := port }
  else
    { nm with host := host, port := port }

end NetworkManager

/- ===== AceAPI : spec-modelled command dispatcher and status poller =====

The `AceAPI` class exists in ace_api.h only inside a comment block (lines
32-89), so its operations are modelled from the specification (§4.2, §4.3)
against a mock transport that counts requests. -/

/-- `CommandError` taxonomy from the spec (§7). -/
inductive CommandError where
  | InvalidArgument
  | HostRejected (reason : String)
  | TransportFailure
deriving DecidableEq, Repr

/-- `PollError` taxonomy from the spec (§7). -/
inductive PollError where
  | TransportFailure
  | ParseError
deriving DecidableEq, Repr

/-- A mock transport recording how many GET/POST requests were issued,
as the spec's testable properties prescribe (§8: "verify via a call-count
assertion on a mock transport"). -/
structure MockTransport where
  getCount : Nat
  postCount : Nat
deriving DecidableEq, Repr

/-- One POST issued on the mock transport. -/
def MockTransport.post (t : MockTransport) : MockTransport :=
  { t with postCount := t.postCount + 1 }

namespace AceAPI

/-- Modelled from the spec: `AceAPI::loadFilament` is only a commented-out
declaration (ace_api.h line 61).  Per §4.3: slot out of `[0, slotCount)`
fails immediately with `InvalidArgument` and no network call; otherwise the
operation issues exactly one POST and maps the host response (`hostOk`) to
success or a typed failure. -/
def loadFilament (t : MockTransport) (hostOk : Bool) (slot _length _speed : Int) :
    MockTransport × Except CommandError Unit :=
  if slot < 0 ∨ (ACE_SLOT_COUNT : Int) ≤ slot then
    (t, Except.error CommandError.InvalidArgument)
  else
    (t.post, if hostOk then Except.ok () else
      Except.error (CommandError.HostRejected "host rejected"))

/-- Modelled from the spec: `AceAPI::unloadFilament` (ace_api.h line 62),
same contract as `loadFilament`. -/
def unloadFilament (t : MockTransport) (hostOk : Bool) (slot _length _speed : Int) :
    MockTransport × Except CommandError Unit :=
  if slot < 0 ∨ (ACE_SLOT_COUNT : Int) ≤ slot then
    (t, Except.error CommandError.InvalidArgument)
  else
    (t.post, if hostOk then Except.ok () else
      Except.error (CommandError.HostRejected "host rejected"))

/-- Modelled from the spec: `AceAPI::changeTool` (ace_api.h line 63). -/
def changeTool (t : MockTransport) (hostOk : Bool) (slot : Int) :
    MockTransport × Except CommandError Unit :=
  if slot < 0 ∨ (ACE_SLOT_COUNT : Int) ≤ slot then
    (t, Except.error CommandError.InvalidArgument)
  else
    (t.post, if hostOk then Except.ok () else
      Except.error (CommandError.HostRejected "host rejected"))

/-- Modelled from the spec: `AceAPI::setSlotMaterial` (ace_api.h line 68). -/
def setSlotMaterial (t : MockTransport) (hostOk : Bool) (slot : Int)
    (_material _color : String) (_temp : Int) :
    MockTransport × Except CommandError Unit :=
  if slot < 0 ∨ (ACE_SLOT_COUNT : Int) ≤ slot then
    (t, Except.error CommandError.InvalidArgument)
  else
    (t.post, if hostOk then Except.ok () else
      Except.error (CommandError.HostRejected "host rejected"))

/-- Modelled from the spec: `AceAPI::setSlotEmpty` (ace_api.h line 69). -/
def setSlotEmpty (t : MockTransport) (hostOk : Bool) (slot : Int) :
    MockTransport × Except CommandError Unit :=
  if slot < 0 ∨ (ACE_SLOT_COUNT : Int) ≤ slot then
    (t, Except.error CommandError.InvalidArgument)
  else
    (t.post, if hostOk then Except.ok () else
      Except.error (CommandError.HostRejected "host rejected"))

end AceAPI

/- ===== JSON model and the status poller ===== -/

/-- A JSON value, as produced by parsing an HTTP response body.  A body
that is not syntactically valid JSON is represented as `none` at the
`Option Json` level. -/
inductive Json where
  | null
  | bool (b : Bool)
  | num (n : Int)
  | str (s : String)
  | arr (elems : List Json)
  | obj (fields : List (String × Json))
deriving Repr

/-- Field lookup on a JSON object; `none` when the value is not an object
or the field is absent. -/
def Json.getField : Json → String → Option Json
  | Json.obj fields, key => fields.lookup key
  | _, _ => none

/-- Read a JSON value as a string. -/
def Json.asString : Json → Option String
  | Json.str s => some s
  | _ => none

/-- Read a JSON value as an integer. -/
def Json.asInt : Json → Option Int
  | Json.num n => some n
  | _ => none

/-- Read a JSON value as a boolean. -/
def Json.asBool : Json → Option Bool
  | Json.bool b => some b
  | _ => none

/-- Read a JSON value as an array. -/
def Json.asArr : Json → Option (List Json)
  | Json.arr elems => some elems
  | _ => none

/-- Look up a field and read it as a string. -/
def Json.strField (j : Json) (key : String) : Option String :=
  (j.getField key).bind Json.asString

/-- Look up a field and read it as an integer. -/
def Json.intField (j : Json) (key : String) : Option Int :=
  (j.getField key).bind Json.asInt

/-- Look up a field and read it as a boolean. -/
def Json.boolField (j : Json) (key : String) : Option Bool :=
  (j.getField key).bind Json.asBool

/-- Look up a field and read it as an array. -/
def Json.arrField (j : Json) (key : String) : Option (List Json) :=
  (j.getField key).bind Json.asArr

namespace AceAPI

/-- Modelled from the spec: the per-slot part of `AceAPI::parseAceStatus` /
`parseInventoryStatus` / `parseColorString` (commented-out declarations,
ace_api.h lines 47-49).  Per §4.2 every required field must be present for
the parse to succeed, unknown fields are ignored, and the color name maps
to a packed RGB via the fixed lookup with a defined fallback (never an
error). -/
def parseMaterialSlot (j : Json) : Option MaterialSlot := do
  let index ← (← j.getField "index").asInt
  let status ← (← j.getField "status").asString
  let material ← (← j.getField "material").asString
  let color ← (← j.getField "color").asString
  let temp ← (← j.getField "temp").asInt
  pure { index := index, status := status, material := material,
         color := color, temp := temp,
         colorRGB := AceProUI.slotColorOf color }

/-- Package a parsed slot list, requiring exactly `ACE_SLOT_COUNT`
entries (the fixed array size of `AceStatus.slots`). -/
def toSlots (l : List MaterialSlot) :
    Option { l : List MaterialSlot // l.length = ACE_SLOT_COUNT } :=
  if h : l.length = ACE_SLOT_COUNT then some ⟨l, h⟩ else none

/-- Modelled from the spec: the whole-body parse of `AceAPI::updateStatus`
(commented-out declaration, ace_api.h line 56).  Per §4.2/§6 the candidate
snapshot requires `status`, `currentTool`, `temperature`,
`endlessSpoolEnabled`, `runoutDetected`, `inProgress`, `slots` (exactly
`ACE_SLOT_COUNT` well-formed entries) and `lastError`; any missing or
ill-typed required field fails the whole parse rather than substituting a
default. -/
def parseSnapshot (body : Option Json) : Option AceStatus :=
  match body with
  | none => none
  | some j =>
    match j.strField "status", j.intField "currentTool",
          j.intField "temperature", j.boolField "endlessSpoolEnabled",
          j.boolField "runoutDetected", j.boolField "inProgress",
          j.arrField "slots", j.strField "lastError" with
    | some status, some currentTool, some temperature,
      some endlessSpoolEnabled, some runoutDetected, some inProgress,
      some slotsJson, some lastError =>
        match (slotsJson.mapM parseMaterialSlot).bind toSlots with
        | some slots =>
            some { status := status, currentTool := currentTool,
                   temperature := temperature,
                   endlessSpoolEnabled := endlessSpoolEnabled,
                   runoutDetected := runoutDetected, inProgress := inProgress,
                   slots := slots, lastError := lastError, lastUpdate := 0 }
        | none => none
    | _, _, _, _, _, _, _, _ => none

/-- The poller's private state: `currentStatus` and `lastStatusUpdate`
(commented-out members, ace_api.h lines 36-38). -/
structure PollerState where
  currentStatus : AceStatus
  lastStatusUpdate : Nat
deriving DecidableEq, Repr

/-- Modelled from the spec: `AceAPI::updateStatus` (the spec's `pollOnce`;
commented-out declaration, ace_api.h line 56).  One poll takes the current
time and the parsed HTTP body; only on a full, successful parse does it
atomically replace the published snapshot together with its timestamp.
Partial or malformed JSON leaves the previous snapshot untouched and
returns `ParseError`. -/
def updateStatus (st : PollerState) (now : Nat) (body : Option Json) :
    PollerState × Except PollError Unit :=
  match parseSnapshot body with
  | none => (st, Except.error PollError.ParseError)
  | some snap =>
      ({ currentStatus := { snap with lastUpdate := now },
         lastStatusUpdate := now }, Except.ok ())

end AceAPI

/- ===== observables and predicates ===== -/

/-- The background color shown by slot button `j`, when that button
exists. -/
def slotBg (ui : UIState) (j : Fin 8) : Option Nat :=
  (ui.slot_buttons j).map SlotButton.bgColor

/-- `AceProUI::init` has not been called: every static UI handle of
ui_ace_pro.cpp (lines 5-8) is still NULL. -/
def uninitialized (ui : UIState) : Prop :=
  ui.main_screen = false ∧ ui.status_label = none ∧
    ∀ j : Fin 8, ui.slot_buttons j = none

/- ===== concrete fixtures ===== -/

/-- The UI state right after `AceProUI::init`. -/
def uiInit : UIState :=
  AceProUI.init AceProUI.initialState

/-- An empty material slot with a given index. -/
def emptySlotAt (i : Nat) : MaterialSlot :=
  { index := i, status := "empty", material := "", color := "", temp := 0,
    colorRGB := 0x0d47a1 }

/-- A concrete four-slot snapshot. -/
def sampleStatus : AceStatus :=
  { status := "ready", currentTool := 0, temperature := 210,
    endlessSpoolEnabled := true, runoutDetected := false,
    inProgress := false,
    slots := ⟨[emptySlotAt 0, emptySlotAt 1, emptySlotAt 2, emptySlotAt 3], rfl⟩,
    lastError := "", lastUpdate := 0 }

/-- A concrete poller state publishing `sampleStatus`. -/
def samplePoller : AceAPI.PollerState :=
  { currentStatus := sampleStatus, lastStatusUpdate := 0 }

/- ===== theorems ===== -/

/-- Claim C5: the configuration surface's documented defaults — status poll
interval 2 s, HTTP timeout 5 s, reconnect interval 5 s, slot count 4 —
match the compile-time constants `STATUS_UPDATE_INTERVAL`, `HTTP_TIMEOUT`,
`CONNECTION_RETRY_INTERVAL` and `ACE_SLOT_COUNT` of config.h (the timing
constants are in milliseconds). -/
theorem config_defaults_match :
    ACE_SLOT_COUNT = 4 ∧ STATUS_UPDATE_INTERVAL = 2 * 1000 ∧
    HTTP_TIMEOUT = 5 * 1000 ∧ CONNECTION_RETRY_INTERVAL = 5 * 1000 := by
  decide

/-- Claim C1: for every slot index outside `[0, ACE_SLOT_COUNT)`, each
slot-taking operation of the command surface (`loadFilament`,
`unloadFilament`, `changeTool`, `setSlotMaterial`, `setSlotEmpty`) fails
immediately with `InvalidArgument` and leaves the transport untouched (no
network call), and the implemented `AceProUI::updateMaterialSlot` returns
without any effect. -/
theorem slot_ops_reject_out_of_range (slot : Int)
    (h : slot < 0 ∨ (ACE_SLOT_COUNT : Int) ≤ slot) :
    (∀ t ok len spd, AceAPI.loadFilament t ok slot len spd
        = (t, Except.error CommandError.InvalidArgument))
    ∧ (∀ t ok len spd, AceAPI.unloadFilament t ok slot len spd
        = (t, Except.error CommandError.InvalidArgument))
    ∧ (∀ t ok, AceAPI.changeTool t ok slot
        = (t, Except.error CommandError.InvalidArgument))
    ∧ (∀ t ok m c temp, AceAPI.setSlotMaterial t ok slot m c temp
        = (t, Except.error CommandError.InvalidArgument))
    ∧ (∀ t ok, AceAPI.setSlotEmpty t ok slot
        = (t, Except.error CommandError.InvalidArgument))
    ∧ (∀ ui m c b, AceProUI.updateMaterialSlot ui slot m c b = ui) := by
  have h4 : slot < 0 ∨ (4 : Int) ≤ slot := by
    simpa [ACE_SLOT_COUNT] using h
  refine ⟨?_, ?_, ?_, ?_, ?_, ?_⟩
  · intro t ok len spd
    simp [AceAPI.loadFilament, h]
  · intro t ok len spd
    simp [AceAPI.unloadFilament, h]
  · intro t ok
    simp [AceAPI.changeTool, h]
  · intro t ok m c temp
    simp [AceAPI.setSlotMaterial, h]
  · intro t ok
    simp [AceAPI.setSlotEmpty, h]
  · intro ui m c b
    simp [AceProUI.updateMaterialSlot, h4]

/-- Witness for C1 at the concrete out-of-range slot 4: `loadFilament`
rejects with `InvalidArgument` and the mock transport records no call. -/
theorem slot_ops_reject_out_of_range_witness :
    AceAPI.loadFilament ⟨0, 0⟩ true 4 100 50
      = (⟨0, 0⟩, Except.error CommandError.InvalidArgument) :=
  (slot_ops_reject_out_of_range 4 (by decide)).1 ⟨0, 0⟩ true 100 50

/-- Claim C7: `NetworkManager::setMoonrakerHost` (the spec's `configure`)
sets the target host and port, and whenever it changes the host while the
connection state is `CONNECTED`, the state transitions to `DISCONNECTED`. -/
theorem setMoonrakerHost_contract (nm : NetworkManagerState) (host : String)
    (port : Int) :
    ((NetworkManager.setMoonrakerHost nm host port).host = host ∧
     (NetworkManager.setMoonrakerHost nm host port).port = port) ∧
    (nm.state = ConnectionState.CONNECTED → host ≠ nm.host →
      (NetworkManager.setMoonrakerHost nm host port).state
        = ConnectionState.DISCONNECTED) := by
  constructor
  · unfold NetworkManager.setMoonrakerHost
    split <;> exact ⟨rfl, rfl⟩
  · intro hc hh
    simp [NetworkManager.setMoonrakerHost, hc, hh]

/-- Witness for C7: changing the host away from the configured
`10.9.9.155` while `CONNECTED` yields `DISCONNECTED`. -/
theorem setMoonrakerHost_contract_witness :
    (NetworkManager.setMoonrakerHost
      ⟨ConnectionState.CONNECTED, "10.9.9.155", 7125⟩ "10.0.0.2" 7125).state
      = ConnectionState.DISCONNECTED :=
  (setMoonrakerHost_contract
    ⟨ConnectionState.CONNECTED, "10.9.9.155", 7125⟩ "10.0.0.2" 7125).2
    rfl (by decide)

/-- Claim C4: color parsing maps the names red, green, blue, yellow, white
and black (case-insensitively) to the fixed constants of
`AceProUI::updateMaterialSlot`, and every other string to the single
fallback color `0x0d47a1`, never an error. -/
theorem color_lookup_fixed_table :
    AceProUI.slotColorOf "red" = 0x1a237e ∧
    AceProUI.slotColorOf "green" = 0x0277bd ∧
    AceProUI.slotColorOf "blue" = 0x1976d2 ∧
    AceProUI.slotColorOf "yellow" = 0x1565c0 ∧
    AceProUI.slotColorOf "white" = 0x42a5f5 ∧
    AceProUI.slotColorOf "black" = 0x0d47a1 ∧
    ∀ c : String,
      lowerStr c ∉ ["red", "green", "blue", "yellow", "white", "black"] →
        AceProUI.slotColorOf c = 0x0d47a1 := by
  refine ⟨rfl, rfl, rfl, rfl, rfl, rfl, ?_⟩
  intro c hc
  simp only [List.mem_cons, List.mem_singleton, not_or] at hc
  obtain ⟨h1, h2, h3, h4, h5, h6, -⟩ := hc
  have e1 : lowerStr "red" = "red" := rfl
  have e2 : lowerStr "green" = "green" := rfl
  have e3 : lowerStr "blue" = "blue" := rfl
  have e4 : lowerStr "yellow" = "yellow" := rfl
  have e5 : lowerStr "white" = "white" := rfl
  have e6 : lowerStr "black" = "black" := rfl
  simp [AceProUI.slotColorOf, equalsIgnoreCase, e1, e2, e3, e4, e5, e6,
    h1, h2, h3, h4, h5, h6]

/-- Witness for C4: the unrecognized name "purple" maps to the fallback. -/
theorem color_lookup_fixed_table_witness :
    AceProUI.slotColorOf "purple" = 0x0d47a1 :=
  color_lookup_fixed_table.2.2.2.2.2.2 "purple" (by decide)

/-- Claim C9: the color-name mapping of `AceProUI::updateMaterialSlot` is
case-insensitive — whenever two color strings agree up to case, updating a
slot with either sets the same slot background color (at every slot
button). -/
theorem color_match_case_insensitive (ui : UIState) (slot : Int)
    (m c c' : String) (h : lowerStr c = lowerStr c') :
    ∀ j : Fin 8,
      slotBg (AceProUI.updateMaterialSlot ui slot m c false) j
        = slotBg (AceProUI.updateMaterialSlot ui slot m c' false) j := by
  intro j
  have hcol : AceProUI.slotColorOf c = AceProUI.slotColorOf c' := by
    simp [AceProUI.slotColorOf, equalsIgnoreCase, h]
  unfold AceProUI.updateMaterialSlot
  split
  · rfl
  · rename_i hrange
    cases hsb : ui.slot_buttons ⟨slot.toNat, by omega⟩ with
    | none => simp [hsb]
    | some b =>
        simp only [hsb]
        by_cases hj : j = (⟨slot.toNat, by omega⟩ : Fin 8)
        · subst hj
          simp [slotBg, Function.update_same, hcol]
        · simp [slotBg, Function.update_noteq hj]

/-- Witness for C9: "RED" and "red" yield the same background color on
slot 0 of the freshly initialized UI. -/
theorem color_match_case_insensitive_witness :
    slotBg (AceProUI.updateMaterialSlot uiInit 0 "PLA" "RED" false)
        ⟨0, by decide⟩
      = slotBg (AceProUI.updateMaterialSlot uiInit 0 "PLA" "red" false)
        ⟨0, by decide⟩ :=
  color_match_case_insensitive uiInit 0 "PLA" "RED" "red" rfl ⟨0, by decide⟩

/-- Claim C2: one call of the poller (`AceAPI::updateStatus`, the spec's
`pollOnce`) on a malformed body, a body missing the required `status`
field, or any body whose parse fails, returns `ParseError` and leaves the
previously published snapshot and its timestamp completely unchanged. -/
theorem poll_parse_error_preserves_snapshot (st : AceAPI.PollerState)
    (now : Nat) (j : Json) (hj : j.getField "status" = none) :
    AceAPI.updateStatus st now (some j)
        = (st, Except.error PollError.ParseError)
    ∧ AceAPI.updateStatus st now none
        = (st, Except.error PollError.ParseError)
    ∧ ∀ body, AceAPI.parseSnapshot body = none →
        AceAPI.updateStatus st now body
          = (st, Except.error PollError.ParseError) := by
  have h1 : j.strField "status" = none := by
    simp [Json.strField, hj]
  have hps : AceAPI.parseSnapshot (some j) = none := by
    simp only [AceAPI.parseSnapshot]
    split
    · simp_all
    · rfl
  refine ⟨?_, rfl, ?_⟩
  · simp [AceAPI.updateStatus, hps]
  · intro body hb
    simp [AceAPI.updateStatus, hb]

/-- Witness for C2: polling the concrete body `{}` (no `status` field)
leaves `samplePoller` unchanged and reports `ParseError`. -/
theorem poll_parse_error_preserves_snapshot_witness :
    AceAPI.updateStatus samplePoller 7 (some (Json.obj []))
      = (samplePoller, Except.error PollError.ParseError) :=
  (poll_parse_error_preserves_snapshot samplePoller 7 (Json.obj []) rfl).1

/-- Claim C3: the `AceStatus` snapshot is an aggregate consisting exactly
of the overall status (a string drawn from `overallStatusValues`), the
current tool index, the temperature reading, the endless-spool flag, the
runout flag, the in-progress flag, the fixed-count slot array, the last
error message and the last-updated timestamp: two snapshots are equal
precisely when all nine components are, the slot array always has
`ACE_SLOT_COUNT` entries, and a poll never moves the timestamp backwards
(it is monotonic when time is). -/
theorem aceStatus_aggregate :
    (∀ a b : AceStatus, a = b ↔
      (a.status = b.status ∧ a.currentTool = b.currentTool ∧
       a.temperature = b.temperature ∧
       a.endlessSpoolEnabled = b.endlessSpoolEnabled ∧
       a.runoutDetected = b.runoutDetected ∧ a.inProgress = b.inProgress ∧
       a.slots = b.slots ∧ a.lastError = b.lastError ∧
       a.lastUpdate = b.lastUpdate))
    ∧ (∀ a : AceStatus, a.slots.val.length = ACE_SLOT_COUNT)
    ∧ (∀ st now body st' r, AceAPI.updateStatus st now body = (st', r) →
        st.lastStatusUpdate ≤ now →
        st.lastStatusUpdate ≤ st'.lastStatusUpdate) := by
  refine ⟨?_, fun a => a.slots.2, ?_⟩
  · intro a b
    cases a
    cases b
    simp
  · intro st now body st' r heq hle
    unfold AceAPI.updateStatus at heq
    cases hp : AceAPI.parseSnapshot body with
    | none =>
        rw [hp] at heq
        simp only [Prod.mk.injEq] at heq
        rw [← heq.1]
    | some snap =>
        rw [hp] at heq
        simp only [Prod.mk.injEq] at heq
        rw [← heq.1]
        exact hle

/-- Witness for C3: a failed poll at time 5 does not move `samplePoller`'s
timestamp backwards. -/
theorem aceStatus_aggregate_witness :
    samplePoller.lastStatusUpdate
      ≤ (AceAPI.updateStatus samplePoller 5 none).1.lastStatusUpdate :=
  aceStatus_aggregate.2.2 samplePoller 5 none
    (AceAPI.updateStatus samplePoller 5 none).1
    (AceAPI.updateStatus samplePoller 5 none).2 rfl (by decide)

/-- Claim C6: marking a slot empty is idempotent — for every valid slot
index, calling `AceProUI::updateMaterialSlot` with `isEmpty = true` twice
in a row yields exactly the same observable UI state (slot label text and
slot background color included) as calling it once. -/
theorem setSlotEmpty_idempotent (ui : UIState) (i : Int) (m c : String)
    (h0 : 0 ≤ i) (h4 : i < 4) :
    AceProUI.updateMaterialSlot
        (AceProUI.updateMaterialSlot ui i m c true) i m c true
      = AceProUI.updateMaterialSlot ui i m c true := by
  have hn : ¬(i < 0 ∨ 4 ≤ i) := by omega
  simp only [AceProUI.updateMaterialSlot, dif_neg hn]
  cases hsb : ui.slot_buttons ⟨i.toNat, by omega⟩ with
  | none => simp [hsb]
  | some b => simp [hsb, Function.update_same, Function.update_idem]

/-- Witness for C6: emptying slot 2 of the freshly initialized UI twice
equals emptying it once. -/
theorem setSlotEmpty_idempotent_witness :
    AceProUI.updateMaterialSlot
        (AceProUI.updateMaterialSlot uiInit 2 "PLA" "Red" true)
        2 "PLA" "Red" true
      = AceProUI.updateMaterialSlot uiInit 2 "PLA" "Red" true :=
  setSlotEmpty_idempotent uiInit 2 "PLA" "Red" (by decide) (by decide)

/-- Claim C10: before `AceProUI::init` has run (all static UI handles
NULL), `show`, `updateStatus` and `updateMaterialSlot` are no-ops for any
arguments: each returns without touching a null handle and without
changing any state. -/
theorem uninitialized_ops_noop (ui : UIState) (h : uninitialized ui) :
    AceProUI.showScreen ui = ui
    ∧ (∀ s e, AceProUI.updateStatus ui s e = ui)
    ∧ (∀ i m c b, AceProUI.updateMaterialSlot ui i m c b = ui) := by
  obtain ⟨hscr, hlbl, hbtn⟩ := h
  refine ⟨?_, ?_, ?_⟩
  · simp [AceProUI.showScreen, hscr]
  · intro s e
    simp [AceProUI.updateStatus, hlbl]
  · intro i m c b
    unfold AceProUI.updateMaterialSlot
    split
    · rfl
    · rename_i hrange
      simp [hbtn]

/-- Witness for C10: on the all-NULL initial state, `show` and a slot
update with concrete arguments change nothing. -/
theorem uninitialized_ops_noop_witness :
    AceProUI.showScreen AceProUI.initialState = AceProUI.initialState
    ∧ AceProUI.updateMaterialSlot AceProUI.initialState 2 "PLA" "Red" false
      = AceProUI.initialState := by
  have H := uninitialized_ops_noop AceProUI.initialState
    ⟨rfl, rfl, fun _ => rfl⟩
  exact ⟨H.1, H.2.2 2 "PLA" "Red" false⟩

/-- Claim C8: slot-selection highlighting keeps a single-selection
invariant — after `AceProUI::slotButtonCallback` with a slot index
`s < 4`, every existing slot button keeps existing, the button at `s`
carries the highlight border (color `0x00e5ff`, width 3), and every other
non-null slot button carries the standard border (color `0x42a5f5`,
width 2), regardless of the previous selection state.  (The hypothesis
`hnull` records the invariant of ui_ace_pro.cpp lines 103-106 that array
entries 4..7 stay NULL.) -/
theorem slot_highlight_single_selection (ui : UIState) (s : Nat)
    (hs : s < 4)
    (hnull : ∀ j : Fin 8, 4 ≤ j.val → ui.slot_buttons j = none) :
    (∀ j : Fin 8,
      ((AceProUI.slotButtonCallback ui s).slot_buttons j).isSome
        = (ui.slot_buttons j).isSome)
    ∧ (∀ j : Fin 8, ∀ b : SlotButton,
        (AceProUI.slotButtonCallback ui s).slot_buttons j = some b →
          (j.val = s → b.borderColor = 0x00e5ff ∧ b.borderWidth = 3) ∧
          (j.val ≠ s → b.borderColor = 0x42a5f5 ∧ b.borderWidth = 2)) := by
  constructor
  · intro j
    simp only [AceProUI.slotButtonCallback]
    by_cases hj : j.val < 4
    · cases hsb : ui.slot_buttons j with
      | none => simp [hj, hsb]
      | some b0 =>
          simp only [hj, if_true, hsb]
          split <;> rfl
    · simp [hj]
  · intro j b hb
    simp only [AceProUI.slotButtonCallback] at hb
    by_cases hj : j.val < 4
    · rw [if_pos hj] at hb
      cases hsb : ui.slot_buttons j with
      | none =>
          rw [hsb] at hb
          cases hb
      | some b0 =>
          simp only [hsb] at hb
          by_cases hjs : (j.val : Int) = (s : Int)
          · rw [if_pos hjs] at hb
            have hb' := Option.some.inj hb
            have hv : j.val = s := by exact_mod_cast hjs
            subst hb'
            exact ⟨fun _ => ⟨rfl, rfl⟩, fun hne => absurd hv hne⟩
          · rw [if_neg hjs] at hb
            have hb' := Option.some.inj hb
            have hv : j.val ≠ s := fun he => hjs (by exact_mod_cast he)
            subst hb'
            exact ⟨fun he => absurd he hv, fun _ => ⟨rfl, rfl⟩⟩
    · rw [if_neg hj] at hb
      rw [hnull j (by omega)] at hb
      cases hb

/-- Witness for C8: after selecting slot 1 on the freshly initialized UI,
slot button 0 still exists. -/
theorem slot_highlight_single_selection_witness :
    ((AceProUI.slotButtonCallback uiInit 1).slot_buttons
        ⟨0, by decide⟩).isSome
      = (uiInit.slot_buttons ⟨0, by decide⟩).isSome :=
  (slot_highlight_single_selection uiInit 1 (by decide) (by decide)).1
    ⟨0, by decide⟩
